import Mathlib

/-!
Shallow embedding of the core of the Dextro repository (a Streamlit/LLM IoT
dashboard): the retrying remote-data-access layer
(`DextroSupabaseManager.execute_with_retry`, src/ai_agent.py) and the
metric-normalization and aggregation helpers (src/agentic_tools.py).
Python machine floats only ever hold exact decimal values in the claims
below, so numeric values are modelled by `ℚ`.
-/

namespace Dextro

/-! ## Resilient data access layer: `DextroSupabaseManager.execute_with_retry`
(src/ai_agent.py, lines 718-759) -/

/-- Python `str.lower()`.  (The repository only ever matches ASCII fragments,
for which per-character lowering is exact.) -/
def lowerStr (s : String) : String := ⟨s.data.map Char.toLower⟩

/-- Boolean list-prefix test, used to implement the substring test. -/
def listIsPre : List Char → List Char → Bool
  | [], _ => true
  | _ :: _, [] => false
  | a :: as, b :: bs => a == b && listIsPre as bs

/-- Boolean contiguous-sublist test, used to implement the substring test. -/
def listIsSub (p : List Char) : List Char → Bool
  | [] => listIsPre p []
  | b :: bs => listIsPre p (b :: bs) || listIsSub p bs

/-- Python substring test `needle in s`. -/
def containsSub (needle s : String) : Bool := listIsSub needle.data s.data

/-- Model of the provider response object.  `data` is `none` when the object has
no `data` attribute or the attribute is `None` (both skip the first branch);
`error` is `none` when there is no `error` attribute.  Python tests
`result.error` for truthiness, so `some ""` also behaves as "no error". -/
structure Response (α : Type) where
  data : Option (List α)
  error : Option String
deriving DecidableEq

/-- One invocation of the zero-argument `operation`: it either returns a
response, raises a `PostgrestAPIError` whose `str(e)` is `msg`, or raises a
generic `Exception` whose `str(e)` is `msg`. -/
inductive AttemptOutcome (α : Type)
  | resp (r : Response α)
  | postgrestErr (msg : String)
  | exc (msg : String)
deriving DecidableEq

/-- The values `execute_with_retry` can return: a data payload (`result.data`;
the literal `[]` returned by the no-rows branch is the same Python value as an
empty payload), an `{"error": msg}` mapping, or the raw response object
(the `else: return result` branch). -/
inductive RetVal (α : Type)
  | data (rows : List α)
  | errorMap (msg : String)
  | raw (r : Response α)
deriving DecidableEq

/-- Source test `"no rows" in error_message or "pgrst116" in error_message`,
where `error_message = str(e).lower()`. -/
def isNoRowsMsg (m : String) : Bool :=
  containsSub "no rows" (lowerStr m) || containsSub "pgrst116" (lowerStr m)

/-- Source test `"permission denied" in error_message` on the lowercased
message. -/
def isPermDeniedMsg (m : String) : Bool :=
  containsSub "permission denied" (lowerStr m)

/-- The loop `for attempt in range(max_retries)` of `execute_with_retry`.
`fuel` is the number of loop iterations still available (initially
`max_retries`), `attempt` the current loop index, `lastExc` the current
`str(last_exception)` (initially `str(None) = "None"`).  The second component
of the result counts how many times `operation` was invoked.  Falling off the
end of the loop (fuel exhausted) is the function's final
`return {"error": f"Operation failed after {max_retries} attempts: {last_exception}"}`. -/
def ewrLoop (op : Nat → AttemptOutcome α) (maxRetries : Nat) :
    Nat → Nat → String → RetVal α × Nat
  | _, 0, lastExc =>
    (.errorMap ("Operation failed after " ++ toString maxRetries ++
      " attempts: " ++ lastExc), 0)
  | attempt, fuel + 1, _ =>
    match op attempt with
    | .resp r =>
      match r.data with
      | some rows => (.data rows, 1)
      | none =>
        match r.error with
        | some e => if e = "" then (.raw r, 1) else (.errorMap e, 1)
        | none => (.raw r, 1)
    | .postgrestErr m =>
      if isNoRowsMsg m then (.data [], 1)
      else if isPermDeniedMsg m then
        (.errorMap "Insufficient permissions to access this data", 1)
      else if fuel = 0 then
        (.errorMap ("Database operation failed: " ++ m), 1)
      else
        let r := ewrLoop op maxRetries (attempt + 1) fuel m
        (r.1, r.2 + 1)
    | .exc m =>
      if fuel = 0 then
        (.errorMap ("Operation failed after " ++ toString maxRetries ++
          " attempts: " ++ m), 1)
      else
        let r := ewrLoop op maxRetries (attempt + 1) fuel m
        (r.1, r.2 + 1)

/-- `DextroSupabaseManager.execute_with_retry(operation, max_retries)`
(src/ai_agent.py lines 718-759), instrumented with the invocation count. -/
def execute_with_retry (op : Nat → AttemptOutcome α) (maxRetries : Nat) :
    RetVal α × Nat :=
  ewrLoop op maxRetries 0 maxRetries "None"

/-- The `i`-th invocation of the operation raises a transient error: a
structured API error whose message matches neither the no-rows nor the
permission-denied test, or any generic exception. -/
def transientAt (op : Nat → AttemptOutcome α) (i : Nat) : Prop :=
  match op i with
  | .resp _ => False
  | .postgrestErr m => isNoRowsMsg m = false ∧ isPermDeniedMsg m = false
  | .exc _ => True

/-- The returned value is a data payload or an `{"error": …}` mapping (the two
shapes the spec's propagation policy names). -/
def isTaggedPayloadOrError : RetVal α → Prop
  | .data _ => True
  | .errorMap _ => True
  | .raw _ => False

/-! ## Metrics normalization and aggregation (src/agentic_tools.py) -/

/-- An untyped Python value held in a `metric_value` column or a metrics dict:
either a number (Python `int`/`float`; exact decimals here, hence `ℚ`) or a
value that is neither a number nor a numeric string, on which `float()`,
`int()` and order comparisons raise. -/
inductive PyVal
  | num (q : ℚ)
  | nonNum (s : String)
deriving DecidableEq

/-- A metrics dictionary as built by the row-bundling loops: it maps a metric
name to the `'value'` entry of its `{'value': …, 'unit': …, 'description': …}`
record (`none` when the metric name is absent). -/
def Metrics : Type := String → Option PyVal

/-- Python `d.get(key, {}).get('value', default)`. -/
def getV (m : Metrics) (key : String) (default : ℚ) : PyVal :=
  (m key).getD (.num default)

/-- Python `x > y` on dict values: raises `TypeError` (modelled
`Except.error ()`) unless both operands are numbers. -/
def pyGt (a b : PyVal) : Except Unit Bool :=
  match a, b with
  | .num x, .num y => .ok (decide (x > y))
  | _, _ => .error ()

/-- Python `x < y` on dict values, as `pyGt`. -/
def pyLt (a b : PyVal) : Except Unit Bool :=
  match a, b with
  | .num x, .num y => .ok (decide (x < y))
  | _, _ => .error ()

/-- Python `x / y` on dict values: `TypeError` unless both operands are
numbers, `ZeroDivisionError` when `y == 0`. -/
def pyDiv (a b : PyVal) : Except Unit ℚ :=
  match a, b with
  | .num x, .num y => if y = 0 then .error () else .ok (x / y)
  | _, _ => .error ()

/-- Python `v == 0`: equality never raises; a non-number is unequal to `0`. -/
def pyEqZero (a : PyVal) : Bool :=
  match a with
  | .num x => decide (x = 0)
  | .nonNum _ => false

/-- Python `float(v)`: the identity on numbers, raises on non-coercible
values. -/
def pyFloat (v : PyVal) : Except Unit ℚ :=
  match v with
  | .num q => .ok q
  | .nonNum _ => .error ()

/-- Truncation toward zero, the behaviour of Python `int()` on a float. -/
def ratTrunc (q : ℚ) : ℤ := if 0 ≤ q then ⌊q⌋ else ⌈q⌉

/-- Python `int(v)`: truncates numbers toward zero, raises on non-coercible
values. -/
def pyInt (v : PyVal) : Except Unit ℤ :=
  match v with
  | .num q => .ok (ratTrunc q)
  | .nonNum _ => .error ()

/-- Python `round(x, 1)`: round half to even at the first decimal.  All values
the claims exercise are exact multiples of `1/10`, where this is also exact on
binary floats. -/
def pyRound1 (x : ℚ) : ℚ :=
  ((if x * 10 - ⌊x * 10⌋ = 1 / 2 then
      (if ⌊x * 10⌋ % 2 = 0 then ⌊x * 10⌋ else ⌊x * 10⌋ + 1)
    else ⌊x * 10 + 1 / 2⌋ : ℤ) : ℚ) / 10

/-- Python `min(a, b)` on numbers, kept kernel-reducible. -/
def pyMin (a b : ℚ) : ℚ := if a ≤ b then a else b

/-- Python `max(a, b)` on numbers, kept kernel-reducible. -/
def pyMax (a b : ℚ) : ℚ := if b ≤ a then a else b

/-- The `try` body of `_calculate_overall_health_score` (src/agentic_tools.py
lines 257-276), following Python's evaluation order (the conditional
expression evaluates its condition first); `Except.error ()` is a raised
exception.  When `total_devices` is absent, `.get('value', 1)` defaults it to
`1`; the other two default to `0`. -/
def healthScoreCore (fleet_summary : Metrics) : Except Unit ℚ :=
  let total_devices := getV fleet_summary "total_devices" 1
  let active_devices := getV fleet_summary "active_devices" 0
  let error_devices := getV fleet_summary "error_devices" 0
  match pyGt total_devices (.num 0) with
  | .error e => .error e
  | .ok totPos =>
    match (if totPos then
             match pyDiv active_devices total_devices with
             | .error e => .error e
             | .ok q => .ok (q * 60)
           else .ok 0 : Except Unit ℚ) with
    | .error e => .error e
    | .ok active_score =>
      match pyGt total_devices (.num 0) with
      | .error e => .error e
      | .ok totPos2 =>
        match (if totPos2 then
                 match pyDiv error_devices total_devices with
                 | .error e => .error e
                 | .ok q => .ok (q * 30)
               else .ok 0 : Except Unit ℚ) with
        | .error e => .error e
        | .ok error_penalty =>
          let no_error_bonus : ℚ := if pyEqZero error_devices then 40 else 10
          .ok (pyRound1 (pyMax 0 (pyMin 100 (active_score - error_penalty + no_error_bonus))))

/-- `_calculate_overall_health_score(fleet_summary, error_distribution)`
(src/agentic_tools.py lines 257-276).  The `error_distribution` argument is
accepted and unused, exactly as in the source; any raised exception yields the
default `50.0`. -/
def calculate_overall_health_score (fleet_summary error_distribution : Metrics) : ℚ :=
  match healthScoreCore fleet_summary with
  | .ok s => s
  | .error _ => 50

/-- Message appended when `error_rate > 20`. -/
def criticalErrMsg : String :=
  "🔴 CRITICAL: High error rate detected - Schedule immediate fleet inspection"

/-- Message appended when `10 < error_rate ≤ 20`. -/
def warningErrMsg : String :=
  "🟡 WARNING: Multiple devices showing errors - Plan maintenance cycle"

/-- Message appended when `0 < error_devices` but `error_rate ≤ 10`. -/
def monitorErrMsg : String :=
  "✅ Monitor error devices and address during next maintenance window"

/-- Message appended when `avg_temp > 60`. -/
def highTempMsg : String :=
  "🌡️ High average temperature detected - Check cooling systems and clean air filters"

/-- Message appended when `avg_temp < 20`. -/
def lowTempMsg : String :=
  "❄️ Low temperature readings - Verify sensors and check for winter operational issues"

/-- Message appended when `uptime < 90`. -/
def lowUptimeMsg : String :=
  "⚡ Low fleet uptime - Investigate power supply and connectivity issues"

/-- Message appended when `uptime > 95`. -/
def excellentUptimeMsg : String :=
  "✅ Excellent fleet uptime - Continue current maintenance practices"

/-- Default message when no rule fired. -/
def normalOpsMsg : String :=
  "✅ Fleet operating normally - Continue regular monitoring and maintenance"

/-- Message appended by the `except` handler of
`_generate_fleet_recommendations`. -/
def unableMsg : String :=
  "⚠️ Unable to generate specific recommendations - Contact support team"

/-- The error-rate rules of `_generate_fleet_recommendations`
(src/agentic_tools.py lines 289-296), as run inside the `try` body: reads
`total_devices` and `error_devices` (defaults 0), and appends at most one of
three messages when `error_devices > 0`.  `Except.error` is a raised
exception. -/
def errGroupE (fleet_summary : Metrics) : Except Unit (List String) :=
  let total_devices := getV fleet_summary "total_devices" 0
  let error_devices := getV fleet_summary "error_devices" 0
  match pyGt error_devices (.num 0) with
  | .error e => .error e
  | .ok errPos =>
    if errPos then
      match pyGt total_devices (.num 0) with
      | .error e => .error e
      | .ok totPos =>
        match (if totPos then
                 match pyDiv error_devices total_devices with
                 | .error e => .error e
                 | .ok q => .ok (q * 100)
               else .ok 0 : Except Unit ℚ) with
        | .error e => .error e
        | .ok error_rate =>
          .ok (if error_rate > 20 then [criticalErrMsg]
               else if error_rate > 10 then [warningErrMsg]
               else [monitorErrMsg])
    else .ok []

/-- The temperature rules of `_generate_fleet_recommendations`
(src/agentic_tools.py lines 298-302): reads `temperature` (default 0). -/
def tempGroupE (performance_metrics : Metrics) : Except Unit (List String) :=
  let avg_temp := getV performance_metrics "temperature" 0
  match pyGt avg_temp (.num 60) with
  | .error e => .error e
  | .ok hot =>
    if hot then .ok [highTempMsg]
    else
      match pyLt avg_temp (.num 20) with
      | .error e => .error e
      | .ok cold => .ok (if cold then [lowTempMsg] else [])

/-- The uptime rules of `_generate_fleet_recommendations`
(src/agentic_tools.py lines 304-308): reads `uptime_percent` (default 100). -/
def upGroupE (fleet_summary : Metrics) : Except Unit (List String) :=
  let uptime := getV fleet_summary "uptime_percent" 100
  match pyLt uptime (.num 90) with
  | .error e => .error e
  | .ok lowUp =>
    if lowUp then .ok [lowUptimeMsg]
    else
      match pyGt uptime (.num 95) with
      | .error e => .error e
      | .ok highUp => .ok (if highUp then [excellentUptimeMsg] else [])

/-- The `try` body of `_generate_fleet_recommendations` (src/agentic_tools.py
lines 278-318): the three rule groups run in source order, then the default
message is appended when the list is still empty.  An `Except.error` carries
the recommendations already appended before the exception was raised: the
Python `except` handler appends its fallback message to that same list. -/
def recsCore (fleet_summary performance_metrics : Metrics) :
    Except (List String) (List String) :=
  match errGroupE fleet_summary with
  | .error _ => .error []
  | .ok g1 =>
    match tempGroupE performance_metrics with
    | .error _ => .error g1
    | .ok g2 =>
      match upGroupE fleet_summary with
      | .error _ => .error (g1 ++ g2)
      | .ok g3 =>
        let recs := g1 ++ g2 ++ g3
        .ok (if recs = [] then recs ++ [normalOpsMsg] else recs)

/-- `_generate_fleet_recommendations(fleet_summary, performance_metrics,
error_distribution)` (src/agentic_tools.py lines 278-318); the
`error_distribution` argument is unused in the body, exactly as in the
source. -/
def generate_fleet_recommendations
    (fleet_summary performance_metrics error_distribution : Metrics) : List String :=
  match recsCore fleet_summary performance_metrics with
  | .ok recs => recs
  | .error sofar => sofar ++ [unableMsg]

/-- The error-rate rule group of `_generate_fleet_recommendations`, as a pure
function of the numeric inputs. -/
def errRateRules (total errs : ℚ) : List String :=
  if errs > 0 then
    (let rate := if total > 0 then errs / total * 100 else 0
     if rate > 20 then [criticalErrMsg]
     else if rate > 10 then [warningErrMsg]
     else [monitorErrMsg])
  else []

/-- The temperature rule group of `_generate_fleet_recommendations`. -/
def tempRules (t : ℚ) : List String :=
  if t > 60 then [highTempMsg] else if t < 20 then [lowTempMsg] else []

/-- The uptime rule group of `_generate_fleet_recommendations`. -/
def uptimeRules (u : ℚ) : List String :=
  if u < 90 then [lowUptimeMsg] else if u > 95 then [excellentUptimeMsg] else []

/-! ### Row bundling in `get_fleet_health_overview`
(src/agentic_tools.py, lines 155-186) -/

/-- One raw row of the `rpc_fleet_health_overview` TABLE result;
`metric_value` is `none` when the column is SQL `null`. -/
structure MetricRow where
  health_category : String
  metric_name : String
  metric_value : Option PyVal
  metric_unit : String
  status_description : String

/-- The four per-category dicts built by the row loop of
`get_fleet_health_overview`.  Only the `'value'`/`'count'`/`'health_score'`
entry of each record is retained (the `Metrics` model). -/
structure Bundle where
  fleet_summary : Metrics
  performance_metrics : Metrics
  error_distribution : Metrics
  geographic_health : Metrics

/-- The four empty dicts the loop starts from. -/
def emptyBundle : Bundle :=
  ⟨fun _ => none, fun _ => none, fun _ => none, fun _ => none⟩

/-- Python dict assignment `d[name] = …`: later rows overwrite earlier ones. -/
def setMetric (m : Metrics) (k : String) (v : PyVal) : Metrics :=
  fun k2 => if k2 = k then some v else m k2

/-- Source expression `float(row['metric_value']) if row['metric_value'] is not
None else 0`: SQL `null` coerces to `0`, a non-coercible value raises. -/
def coerceFloat (v : Option PyVal) : Except Unit ℚ :=
  match v with
  | none => .ok 0
  | some w => pyFloat w

/-- Source expression `int(row['metric_value']) if row['metric_value'] is not
None else 0`. -/
def coerceInt (v : Option PyVal) : Except Unit ℤ :=
  match v with
  | none => .ok 0
  | some w => pyInt w

/-- One iteration of the row loop of `get_fleet_health_overview`
(src/agentic_tools.py lines 162-186): dispatch on `row['health_category']`; a
raised coercion error aborts the iteration (and, uncaught in the loop, the
whole bundle). -/
def processRow (acc : Bundle) (row : MetricRow) : Except Unit Bundle :=
  if row.health_category = "fleet_summary" then
    match coerceFloat row.metric_value with
    | .error e => .error e
    | .ok q =>
      .ok { acc with fleet_summary := setMetric acc.fleet_summary row.metric_name (.num q) }
  else if row.health_category = "performance" then
    match coerceFloat row.metric_value with
    | .error e => .error e
    | .ok q =>
      .ok { acc with
        performance_metrics := setMetric acc.performance_metrics row.metric_name (.num q) }
  else if row.health_category = "error_distribution" then
    match coerceInt row.metric_value with
    | .error e => .error e
    | .ok n =>
      .ok { acc with
        error_distribution := setMetric acc.error_distribution row.metric_name (.num (n : ℚ)) }
  else if row.health_category = "geographic_health" then
    match coerceFloat row.metric_value with
    | .error e => .error e
    | .ok q =>
      .ok { acc with
        geographic_health := setMetric acc.geographic_health row.metric_name (.num q) }
  else .ok acc

/-- The whole bundling loop over the result rows.  `Except.error ()` means some
row's coercion raised; the exception propagates out of the loop to the
function-level `except Exception` handler of `get_fleet_health_overview`,
which turns it into the `{"success": False, "error": …}` response — the
bundle is aborted, no partial bundle is returned. -/
def bundleRows (rows : List MetricRow) : Except Unit Bundle :=
  rows.foldlM processRow emptyBundle

/-- A `MetricRow` is well formed when its `metric_value` is `null` or a
number, i.e. when its coercion cannot raise. -/
def rowCoercible (row : MetricRow) : Prop :=
  match row.metric_value with
  | none => True
  | some (.num _) => True
  | some (.nonNum _) => False

/-! ### Priority classification in `analyze_overvoltage_impact`
(src/agentic_tools.py, lines 553-603) -/

/-- The business-priority classification of `analyze_overvoltage_impact`:
extract `affected_devices` from the `summary` dict and `maximum` from the
`voltage_stats` dict, then pick the first matching case in source order.  The
surrounding `try` turns a raised coercion error into an error response, hence
the `Except`. -/
def classifyPriority (summary voltage_stats : Metrics) : Except Unit String :=
  match pyInt (getV summary "affected_devices" 0) with
  | .error e => .error e
  | .ok affected_devices_count =>
    match pyFloat (getV voltage_stats "maximum" 0) with
    | .error e => .error e
    | .ok max_voltage =>
      .ok (if affected_devices_count > 5 then
             "High - Multiple devices at risk"
           else if max_voltage > 800 then
             "Critical - Dangerous voltage levels detected"
           else if affected_devices_count > 0 then
             "Medium - Monitor and plan preventive action"
           else
             "Normal - No overvoltage issues detected")

/-! ### Ranking and bucketing in `get_high_error_devices`
(src/agentic_tools.py, lines 400-489) -/

/-- One raw row of the `rpc_high_error_devices` TABLE result.  Fields are
modelled already typed: no claim concerns coercion failures on this query. -/
structure DeviceRow where
  device_id : String
  location : String
  district : String
  error_count : ℤ
  total_readings : ℤ
  error_rate : ℚ
  last_error_date : String
  dominant_error_code : Option ℤ
  current_status : String
deriving DecidableEq

/-- The structured device record built per row by `get_high_error_devices`
(src/agentic_tools.py lines 433-445). -/
structure Device where
  device_id : String
  location : String
  district : String
  error_count : ℤ
  total_readings : ℤ
  error_rate_percent : ℚ
  last_error_date : String
  dominant_error_code : Option ℤ
  current_status : String
deriving DecidableEq

/-- The loop body building one device record: note that
`"error_rate_percent": float(row['error_rate'])` copies the source column, and
`int(row['dominant_error_code']) if row['dominant_error_code'] else None`
sends both SQL `null` and `0` to `None` (Python truthiness). -/
def toDevice (row : DeviceRow) : Device :=
  { device_id := row.device_id
    location := row.location
    district := row.district
    error_count := row.error_count
    total_readings := row.total_readings
    error_rate_percent := row.error_rate
    last_error_date := row.last_error_date
    dominant_error_code :=
      match row.dominant_error_code with
      | some c => if c = 0 then none else some c
      | none => none
    current_status := row.current_status }

/-- Stable insertion into a list sorted by `error_rate_percent` descending:
the inserted element precedes the elements of equal rate already in the list
(which, in `sortByRateDesc`, originate further right in the source). -/
def insertRateDesc (x : Device) : List Device → List Device
  | [] => [x]
  | y :: ys =>
    if y.error_rate_percent ≤ x.error_rate_percent then x :: y :: ys
    else y :: insertRateDesc x ys

/-- Python `high_error_devices.sort(key=lambda x: x['error_rate_percent'],
reverse=True)`: a stable descending sort (CPython's sort is stable and
`reverse=True` does not reverse ties), modelled as stable insertion sort. -/
def sortByRateDesc (l : List Device) : List Device := l.foldr insertRateDesc []

/-- Modelled from the spec: the Supabase-side procedure
`rpc_high_error_devices` is not part of the repository sources (only its
caller is); per the spec it returns only "devices already meeting the source's
error threshold", which with the spec's test vector (threshold 10 keeps rates
25, 18, 12 and drops 8) is the filter `error_rate ≥ threshold`. -/
def rpcHighErrorDevices (allRows : List DeviceRow) (threshold : ℚ) : List DeviceRow :=
  allRows.filter (fun r => decide (threshold ≤ r.error_rate))

/-- The part of the `get_high_error_devices` response the claims are about:
the sorted device list and the `error_device_alerts` bucket counts
(`critical` counts `rate > 20`, `high_priority` counts
`10 <= rate <= 20`). -/
structure HighErrorResult where
  devices : List Device
  critical : ℕ
  high_priority : ℕ
deriving DecidableEq

/-- `get_high_error_devices(error_threshold)` applied to the full source
table: the remote procedure filters, then the Python body converts each row,
sorts by error rate descending, and buckets the alert counts
(src/agentic_tools.py lines 430-489). -/
def get_high_error_devices (allRows : List DeviceRow) (threshold : ℚ) : HighErrorResult :=
  let rows := rpcHighErrorDevices allRows threshold
  let devices := sortByRateDesc (rows.map toDevice)
  { devices := devices
    critical := (devices.filter (fun d => decide (20 < d.error_rate_percent))).length
    high_priority := (devices.filter (fun d =>
      decide (10 ≤ d.error_rate_percent) && decide (d.error_rate_percent ≤ 20))).length }

/-! ## Concrete fixtures used by the claim theorems -/

/-- The empty dict `{}`. -/
def emptyMetrics : Metrics := fun _ => none

/-- Fleet-summary fixture for the health-score vectors:
`{total_devices: total, active_devices: active, error_devices: errs}`. -/
def fsVec (total active errs : ℚ) : Metrics := fun k =>
  if k = "total_devices" then some (.num total)
  else if k = "active_devices" then some (.num active)
  else if k = "error_devices" then some (.num errs)
  else none

/-- Fleet-summary fixture for the recommendation vectors:
`{total_devices: total, error_devices: errs, uptime_percent: uptime}`. -/
def fsRec (total errs uptime : ℚ) : Metrics := fun k =>
  if k = "total_devices" then some (.num total)
  else if k = "error_devices" then some (.num errs)
  else if k = "uptime_percent" then some (.num uptime)
  else none

/-- Performance fixture `{temperature: t}`. -/
def pmRec (t : ℚ) : Metrics := fun k =>
  if k = "temperature" then some (.num t) else none

/-- Overvoltage summary fixture `{affected_devices: a}`. -/
def ovSummary (a : ℚ) : Metrics := fun k =>
  if k = "affected_devices" then some (.num a) else none

/-- Voltage-stats fixture `{maximum: m}`. -/
def ovVolt (m : ℚ) : Metrics := fun k =>
  if k = "maximum" then some (.num m) else none

/-- Fleet-summary fixture with a non-numeric `total_devices` value. -/
def fsBad : Metrics := fun k =>
  if k = "total_devices" then some (.nonNum "n/a") else none

/-- A device row of the high-error table carrying only an id and a rate. -/
def devRow (id : String) (rate : ℚ) : DeviceRow :=
  ⟨id, "loc", "dist", 0, 0, rate, "2024-01-01", none, "active"⟩

/-- A metric row of the fleet-health table. -/
def metRow (cat name : String) (v : Option PyVal) : MetricRow :=
  ⟨cat, name, v, "unit", "desc"⟩

/-- A source row whose `error_rate` column (99) disagrees with
`error_count / total_readings * 100` (= 1). -/
def devRow99 : DeviceRow :=
  ⟨"d1", "loc", "dist", 1, 100, 99, "2024-01-01", none, "error"⟩

/-! ### Fixture lookup lemmas (definitional, proved by `rfl`) -/

theorem getV_fsVec_total (t a e : ℚ) : getV (fsVec t a e) "total_devices" 1 = .num t := rfl
theorem getV_fsVec_active (t a e : ℚ) : getV (fsVec t a e) "active_devices" 0 = .num a := rfl
theorem getV_fsVec_err (t a e : ℚ) : getV (fsVec t a e) "error_devices" 0 = .num e := rfl
theorem getV_empty (k : String) (d : ℚ) : getV emptyMetrics k d = .num d := rfl
theorem getV_fsRec_total (t e u : ℚ) : getV (fsRec t e u) "total_devices" 0 = .num t := rfl
theorem getV_fsRec_err (t e u : ℚ) : getV (fsRec t e u) "error_devices" 0 = .num e := rfl
theorem getV_fsRec_up (t e u : ℚ) : getV (fsRec t e u) "uptime_percent" 100 = .num u := rfl
theorem getV_pmRec (x : ℚ) : getV (pmRec x) "temperature" 0 = .num x := rfl
theorem getV_ovSummary (a : ℚ) : getV (ovSummary a) "affected_devices" 0 = .num a := rfl
theorem getV_ovVolt (m : ℚ) : getV (ovVolt m) "maximum" 0 = .num m := rfl
theorem getV_fsBad_total : getV fsBad "total_devices" 1 = .nonNum "n/a" := rfl
theorem getV_fsBad_rec_total : getV fsBad "total_devices" 0 = .nonNum "n/a" := rfl

/-! ## Lemmas about the retry loop -/

/-- The loop invokes the operation at most `fuel` times. -/
theorem ewrLoop_count_le (op : Nat → AttemptOutcome α) (M : ℕ) :
    ∀ fuel attempt last, (ewrLoop op M attempt fuel last).2 ≤ fuel := by
  intro fuel
  induction fuel with
  | zero => intro attempt last; simp [ewrLoop]
  | succ f ih =>
    intro attempt last
    simp only [ewrLoop]
    cases hop : op attempt with
    | resp r =>
      rcases r with ⟨rd, re⟩
      cases rd with
      | some rows => simp
      | none =>
        cases re with
        | some e => by_cases he : e = "" <;> simp [he]
        | none => simp
    | postgrestErr m =>
      by_cases h1 : isNoRowsMsg m
      · simp [h1]
      · by_cases h2 : isPermDeniedMsg m
        · simp [h1, h2]
        · by_cases h3 : f = 0
          · simp [h1, h2, h3]
          · have hrec := ih (attempt + 1) m
            simp only [if_neg h1, if_neg h2, if_neg h3]
            show (ewrLoop op M (attempt + 1) f m).2 + 1 ≤ f + 1
            omega
    | exc m =>
      by_cases h3 : f = 0
      · simp [h3]
      · have hrec := ih (attempt + 1) m
        simp only [if_neg h3]
        show (ewrLoop op M (attempt + 1) f m).2 + 1 ≤ f + 1
        omega

/-- Every exit of the loop is a data payload, an error mapping, or the raw
response object of a response carrying neither usable `data` nor a truthy
`error`. -/
theorem ewrLoop_shape (op : Nat → AttemptOutcome α) (M : ℕ) :
    ∀ fuel attempt last,
      (∃ rows, (ewrLoop op M attempt fuel last).1 = .data rows) ∨
      (∃ m, (ewrLoop op M attempt fuel last).1 = .errorMap m) ∨
      (∃ r, r.data = none ∧ (r.error = none ∨ r.error = some "") ∧
        (ewrLoop op M attempt fuel last).1 = .raw r) := by
  intro fuel
  induction fuel with
  | zero => intro attempt last; right; left; exact ⟨_, rfl⟩
  | succ f ih =>
    intro attempt last
    simp only [ewrLoop]
    cases hop : op attempt with
    | resp r =>
      rcases r with ⟨rd, re⟩
      cases rd with
      | some rows => left; exact ⟨rows, rfl⟩
      | none =>
        cases re with
        | some e =>
          by_cases he : e = ""
          · right; right
            refine ⟨⟨none, some e⟩, rfl, Or.inr (by rw [he]), ?_⟩
            simp [he]
          · right; left
            refine ⟨e, ?_⟩
            simp [he]
        | none =>
          right; right; exact ⟨⟨none, none⟩, rfl, Or.inl rfl, by simp⟩
    | postgrestErr m =>
      by_cases h1 : isNoRowsMsg m
      · left
        refine ⟨[], ?_⟩
        simp [h1]
      · by_cases h2 : isPermDeniedMsg m
        · right; left
          refine ⟨"Insufficient permissions to access this data", ?_⟩
          simp [h1, h2]
        · by_cases h3 : f = 0
          · right; left
            refine ⟨"Database operation failed: " ++ m, ?_⟩
            simp [h1, h2, h3]
          · have hrec := ih (attempt + 1) m
            simp only [if_neg h1, if_neg h2, if_neg h3]
            show
              (∃ rows, (ewrLoop op M (attempt + 1) f m).1 = .data rows) ∨
              (∃ m2, (ewrLoop op M (attempt + 1) f m).1 = .errorMap m2) ∨
              (∃ r, r.data = none ∧ (r.error = none ∨ r.error = some "") ∧
                (ewrLoop op M (attempt + 1) f m).1 = .raw r)
            exact hrec
    | exc m =>
      by_cases h3 : f = 0
      · right; left
        refine ⟨"Operation failed after " ++ toString M ++ " attempts: " ++ m, ?_⟩
        simp [h3]
      · have hrec := ih (attempt + 1) m
        simp only [if_neg h3]
        show
          (∃ rows, (ewrLoop op M (attempt + 1) f m).1 = .data rows) ∨
          (∃ m2, (ewrLoop op M (attempt + 1) f m).1 = .errorMap m2) ∨
          (∃ r, r.data = none ∧ (r.error = none ∨ r.error = some "") ∧
            (ewrLoop op M (attempt + 1) f m).1 = .raw r)
        exact hrec

/-- On a run where every remaining attempt raises a transient error, the loop
uses all its fuel and ends in the exhaustion branch matching the kind of the
last raise. -/
theorem ewrLoop_transient (op : Nat → AttemptOutcome α) (M : ℕ) :
    ∀ f attempt last,
      (∀ i, attempt ≤ i → i ≤ attempt + f → transientAt op i) →
      (ewrLoop op M attempt (f + 1) last).2 = f + 1 ∧
      ∀ m, (op (attempt + f) = .postgrestErr m →
              (ewrLoop op M attempt (f + 1) last).1 =
                .errorMap ("Database operation failed: " ++ m)) ∧
           (op (attempt + f) = .exc m →
              (ewrLoop op M attempt (f + 1) last).1 =
                .errorMap ("Operation failed after " ++ toString M ++
                  " attempts: " ++ m)) := by
  intro f
  induction f with
  | zero =>
    intro attempt last htr
    have htA : transientAt op attempt := htr attempt le_rfl (by omega)
    cases hop : op attempt with
    | resp r =>
      simp only [transientAt, hop] at htA
    | postgrestErr m0 =>
      simp only [transientAt, hop] at htA
      obtain ⟨h1, h2⟩ := htA
      constructor
      · simp [ewrLoop, hop, h1, h2]
      · intro m
        refine ⟨fun hm => ?_, fun hm => ?_⟩
        · rw [Nat.add_zero, hop] at hm
          cases hm
          simp [ewrLoop, hop, h1, h2]
        · rw [Nat.add_zero, hop] at hm
          exact absurd hm (by simp)
    | exc m0 =>
      constructor
      · simp [ewrLoop, hop]
      · intro m
        refine ⟨fun hm => ?_, fun hm => ?_⟩
        · rw [Nat.add_zero, hop] at hm
          exact absurd hm (by simp)
        · rw [Nat.add_zero, hop] at hm
          cases hm
          simp [ewrLoop, hop]
  | succ f2 ih =>
    intro attempt last htr
    have htA : transientAt op attempt := htr attempt le_rfl (by omega)
    cases hop : op attempt with
    | resp r =>
      simp only [transientAt, hop] at htA
    | postgrestErr m0 =>
      simp only [transientAt, hop] at htA
      obtain ⟨h1, h2⟩ := htA
      have hrec := ih (attempt + 1) m0 (fun i hi1 hi2 => htr i (by omega) (by omega))
      rw [show attempt + 1 + f2 = attempt + (f2 + 1) by omega] at hrec
      have heval : ewrLoop op M attempt (f2 + 1 + 1) last =
          ((ewrLoop op M (attempt + 1) (f2 + 1) m0).1,
           (ewrLoop op M (attempt + 1) (f2 + 1) m0).2 + 1) := by
        simp [ewrLoop, hop, h1, h2]
      constructor
      · rw [heval]
        simp [hrec.1]
      · intro m
        refine ⟨fun hm => ?_, fun hm => ?_⟩
        · rw [heval]
          simpa using (hrec.2 m).1 hm
        · rw [heval]
          simpa using (hrec.2 m).2 hm
    | exc m0 =>
      have hrec := ih (attempt + 1) m0 (fun i hi1 hi2 => htr i (by omega) (by omega))
      rw [show attempt + 1 + f2 = attempt + (f2 + 1) by omega] at hrec
      have heval : ewrLoop op M attempt (f2 + 1 + 1) last =
          ((ewrLoop op M (attempt + 1) (f2 + 1) m0).1,
           (ewrLoop op M (attempt + 1) (f2 + 1) m0).2 + 1) := by
        simp [ewrLoop, hop]
      constructor
      · rw [heval]
        simp [hrec.1]
      · intro m
        refine ⟨fun hm => ?_, fun hm => ?_⟩
        · rw [heval]
          simpa using (hrec.2 m).1 hm
        · rw [heval]
          simpa using (hrec.2 m).2 hm

/-! ## Claim theorems for the retry layer -/

/-- C1 (corrected): for every positive `N`, an operation raising a transient
(non-no-rows, non-permission-denied) error on every attempt is invoked exactly
`N` times and a fatal error mapping is returned; but its message is
`"Operation failed after N attempts: <last error>"` only when the final raise
is a generic exception — when it is a structured API error the message is
`"Database operation failed: <last error>"`.  Both kinds consume the same
single attempt budget. -/
theorem execute_with_retry_transient_exhaustion (op : Nat → AttemptOutcome α)
    (N : ℕ) (hN : 0 < N) (htr : ∀ i, i < N → transientAt op i) :
    (execute_with_retry op N).2 = N ∧
    ∀ m, (op (N - 1) = .postgrestErr m →
            (execute_with_retry op N).1 =
              .errorMap ("Database operation failed: " ++ m)) ∧
         (op (N - 1) = .exc m →
            (execute_with_retry op N).1 =
              .errorMap ("Operation failed after " ++ toString N ++
                " attempts: " ++ m)) := by
  obtain ⟨k, rfl⟩ : ∃ k, N = k + 1 := ⟨N - 1, by omega⟩
  have h := ewrLoop_transient op (k + 1) k 0 "None"
    (fun i hi1 hi2 => htr i (by omega))
  simp only [Nat.zero_add] at h
  refine ⟨?_, ?_⟩
  · simpa [execute_with_retry] using h.1
  · intro m
    simpa [execute_with_retry, Nat.add_sub_cancel] using h.2 m

/-- Witness for C1: a generic always-failing operation at `N = 2`. -/
theorem execute_with_retry_transient_exhaustion_witness :
    (execute_with_retry (α := Unit) (fun _ => .exc "boom") 2).2 = 2 ∧
    (execute_with_retry (α := Unit) (fun _ => .exc "boom") 2).1 =
      .errorMap ("Operation failed after " ++ toString 2 ++ " attempts: " ++ "boom") := by
  have h := execute_with_retry_transient_exhaustion (α := Unit)
    (fun _ => .exc "boom") 2 (by decide) (fun i _ => trivial)
  exact ⟨h.1, (h.2 "boom").2 rfl⟩

/-- Counterexample for C1 as stated: an operation that always raises a
structured transient API error is invoked exactly `N = 2` times but the
returned message is `"Database operation failed: …"`, not
`"Operation failed after 2 attempts: …"`. -/
theorem execute_with_retry_structured_message_cex :
    (execute_with_retry (α := Unit) (fun _ => .postgrestErr "timeout") 2).1 =
      .errorMap "Database operation failed: timeout" ∧
    (execute_with_retry (α := Unit) (fun _ => .postgrestErr "timeout") 2).1 ≠
      .errorMap "Operation failed after 2 attempts: timeout" ∧
    (execute_with_retry (α := Unit) (fun _ => .postgrestErr "timeout") 2).2 = 2 := by
  decide

/-- C2 (corrected): `execute_with_retry` never raises — it always returns a
value after at most `max_retries` invocations — but the value is not always a
data payload or an error mapping: when the response object carries neither a
usable `data` attribute nor a truthy `error` attribute, the raw response
object itself is returned. -/
theorem execute_with_retry_never_raises (op : Nat → AttemptOutcome α) (N : ℕ) :
    (execute_with_retry op N).2 ≤ N ∧
    ((∃ rows, (execute_with_retry op N).1 = .data rows) ∨
     (∃ m, (execute_with_retry op N).1 = .errorMap m) ∨
     (∃ r, r.data = none ∧ (r.error = none ∨ r.error = some "") ∧
       (execute_with_retry op N).1 = .raw r)) :=
  ⟨ewrLoop_count_le op N N 0 "None", ewrLoop_shape op N N 0 "None"⟩

/-- Counterexample for C2 as stated: an operation returning a response with no
`data` and no `error` attribute makes `execute_with_retry` return the raw
response object — neither a data payload nor a tagged error mapping. -/
theorem execute_with_retry_raw_return_cex :
    ¬ isTaggedPayloadOrError
        ((execute_with_retry (α := Unit) (fun _ => .resp ⟨none, none⟩) 3).1) := by
  have h : (execute_with_retry (α := Unit) (fun _ => .resp ⟨none, none⟩) 3).1 =
      .raw ⟨none, none⟩ := by decide
  rw [h]
  exact fun hh => hh

/-- C3 (corrected): a structured API error on the first invocation is
classified without consuming the retry budget — a message matching the
no-rows test returns the empty result after one invocation, and a message
matching the permission test returns the permission failure after one
invocation — but the no-rows test is checked first, so it takes precedence on
messages matching both. -/
theorem execute_with_retry_no_retry_classification (op : Nat → AttemptOutcome α)
    (N : ℕ) (m : String) (hop : op 0 = .postgrestErr m) (hN : 1 ≤ N) :
    (isNoRowsMsg m = true → execute_with_retry op N = (.data [], 1)) ∧
    (isNoRowsMsg m = false → isPermDeniedMsg m = true →
      execute_with_retry op N =
        (.errorMap "Insufficient permissions to access this data", 1)) := by
  obtain ⟨k, rfl⟩ : ∃ k, N = k + 1 := ⟨N - 1, by omega⟩
  constructor
  · intro h1
    simp [execute_with_retry, ewrLoop, hop, h1]
  · intro h1 h2
    simp [execute_with_retry, ewrLoop, hop, h1, h2]

/-- Witness for C3: a no-rows message and a permission-denied message, each on
the first attempt with budget 3. -/
theorem execute_with_retry_no_retry_classification_witness :
    execute_with_retry (α := Unit) (fun _ => .postgrestErr "PGRST116: 0 rows") 3 =
      (.data [], 1) ∧
    execute_with_retry (α := Unit) (fun _ => .postgrestErr "permission denied for table") 3 =
      (.errorMap "Insufficient permissions to access this data", 1) := by
  constructor
  · exact (execute_with_retry_no_retry_classification (α := Unit)
      (fun _ => .postgrestErr "PGRST116: 0 rows") 3 _ rfl (by decide)).1 (by decide)
  · exact (execute_with_retry_no_retry_classification (α := Unit)
      (fun _ => .postgrestErr "permission denied for table") 3 _ rfl (by decide)).2
      (by decide) (by decide)

/-- Counterexample for C3 as stated: a message containing both "no rows" and
"permission denied" returns the empty result, not the permission failure. -/
theorem execute_with_retry_no_rows_beats_permission_cex :
    isPermDeniedMsg "no rows: permission denied" = true ∧
    execute_with_retry (α := Unit)
        (fun _ => .postgrestErr "no rows: permission denied") 3 = (.data [], 1) ∧
    (execute_with_retry (α := Unit)
        (fun _ => .postgrestErr "no rows: permission denied") 3).1 ≠
      .errorMap "Insufficient permissions to access this data" := by
  decide

/-- C10 (confirmed): a response whose `data` attribute is not `None` — the
empty list included — is returned unchanged after exactly one invocation with
no retry; consequently an empty successful payload and a structured no-rows
error produce the same returned value, the empty list. -/
theorem execute_with_retry_data_passthrough (op : Nat → AttemptOutcome α)
    (N : ℕ) (r : Response α) (rows : List α)
    (hop : op 0 = .resp r) (hdata : r.data = some rows) (hN : 1 ≤ N) :
    execute_with_retry op N = (.data rows, 1) ∧
    (execute_with_retry (fun _ => .resp (⟨some [], none⟩ : Response α)) N).1 =
      (execute_with_retry (fun _ => (.postgrestErr "no rows" : AttemptOutcome α)) N).1 := by
  obtain ⟨k, rfl⟩ : ∃ k, N = k + 1 := ⟨N - 1, by omega⟩
  refine ⟨?_, ?_⟩
  · simp [execute_with_retry, ewrLoop, hop, hdata]
  · have h1 : (execute_with_retry
        (fun _ => .resp (⟨some [], none⟩ : Response α)) (k + 1)).1 = .data [] := by
      simp [execute_with_retry, ewrLoop]
    have h2 : (execute_with_retry
        (fun _ => (.postgrestErr "no rows" : AttemptOutcome α)) (k + 1)).1 = .data [] := by
      simp [execute_with_retry, ewrLoop, (by decide : isNoRowsMsg "no rows" = true)]
    rw [h1, h2]

/-- Witness for C10: a one-element payload at budget 3. -/
theorem execute_with_retry_data_passthrough_witness :
    execute_with_retry (α := Unit) (fun _ => .resp ⟨some [()], none⟩) 3 =
      (.data [()], 1) :=
  (execute_with_retry_data_passthrough (α := Unit)
    (fun _ => .resp ⟨some [()], none⟩) 3 ⟨some [()], none⟩ [()] rfl rfl
    (by decide)).1

/-! ## Claim theorems for the health score -/

/-- A non-numeric `total_devices` makes the `try` body raise at the very first
comparison `total_devices > 0`. -/
theorem healthScoreCore_fsBad : healthScoreCore fsBad = .error () := by
  simp [healthScoreCore, getV_fsBad_total, pyGt]

/-- C4 (corrected): the health score matches the spec's first two vectors
(100.0 and 25.0), but the empty input returns 40.0, not 50.0 — `{}` raises
nothing because `total_devices` defaults to 1 and the no-error bonus is 40.
The 50.0 neutral default is produced exactly by raised computation errors,
such as a non-numeric `total_devices` value; missing keys merely take their
defaults. -/
theorem health_score_vectors (fs ed1 : Metrics)
    (herr : healthScoreCore fs = .error ()) :
    calculate_overall_health_score (fsVec 10 10 0) emptyMetrics = 100 ∧
    calculate_overall_health_score (fsVec 10 5 5) emptyMetrics = 25 ∧
    calculate_overall_health_score emptyMetrics emptyMetrics = 40 ∧
    calculate_overall_health_score fs ed1 = 50 ∧
    calculate_overall_health_score fsBad emptyMetrics = 50 := by
  refine ⟨?_, ?_, ?_, ?_, ?_⟩
  · norm_num [calculate_overall_health_score, healthScoreCore, getV_fsVec_total,
      getV_fsVec_active, getV_fsVec_err, pyGt, pyDiv, pyEqZero, pyMin, pyMax, pyRound1]
  · norm_num [calculate_overall_health_score, healthScoreCore, getV_fsVec_total,
      getV_fsVec_active, getV_fsVec_err, pyGt, pyDiv, pyEqZero, pyMin, pyMax, pyRound1]
  · norm_num [calculate_overall_health_score, healthScoreCore, getV_empty,
      pyGt, pyDiv, pyEqZero, pyMin, pyMax, pyRound1]
  · simp [calculate_overall_health_score, herr]
  · simp [calculate_overall_health_score, healthScoreCore_fsBad]

/-- Witness for C4: the non-numeric fixture takes the 50.0 fallback. -/
theorem health_score_vectors_witness :
    calculate_overall_health_score fsBad emptyMetrics = 50 :=
  (health_score_vectors fsBad emptyMetrics
    (by simp [healthScoreCore, getV_fsBad_total, pyGt])).2.2.2.1

/-- Counterexample for C4 as stated: the empty input yields 40.0, not the
50.0 fallback the spec's vector requires. -/
theorem health_score_empty_cex :
    calculate_overall_health_score emptyMetrics emptyMetrics = 40 ∧
    (40 : ℚ) ≠ 50 := by
  constructor
  · norm_num [calculate_overall_health_score, healthScoreCore, getV_empty,
      pyGt, pyDiv, pyEqZero, pyMin, pyMax, pyRound1]
  · norm_num

/-! ## Claim theorems for the row bundling -/

/-- A coercible row's loop iteration cannot raise. -/
theorem processRow_ok (acc : Bundle) (row : MetricRow) (h : rowCoercible row) :
    ∃ b, processRow acc row = .ok b := by
  rw [processRow]
  rcases hv : row.metric_value with _ | v
  · split_ifs <;> simp [coerceFloat, coerceInt]
  · cases v with
    | num q => split_ifs <;> simp [coerceFloat, coerceInt, pyFloat, pyInt]
    | nonNum s =>
      rw [rowCoercible, hv] at h
      exact h.elim

/-- A run of the loop over coercible rows cannot raise, from any starting
accumulator. -/
theorem foldlM_processRow_ok :
    ∀ (rows : List MetricRow) (acc : Bundle),
      (∀ r ∈ rows, rowCoercible r) →
      ∃ b, rows.foldlM processRow acc = .ok b := by
  intro rows
  induction rows with
  | nil => intro acc h; exact ⟨acc, rfl⟩
  | cons r rs ih =>
    intro acc h
    obtain ⟨b1, hb1⟩ := processRow_ok acc r (h r (by simp))
    obtain ⟨b2, hb2⟩ := ih b1 (fun x hx => h x (by simp [hx]))
    refine ⟨b2, ?_⟩
    rw [List.foldlM_cons, hb1]
    exact hb2

/-- C5 (corrected): a row whose `metric_value` is SQL null yields `0` for that
metric and coercible rows never abort the bundle — but a single non-coercible
`metric_value` raises out of the loop and aborts construction of the whole
bundle (the function-level handler then returns an error response instead of
any partial bundle). -/
theorem bundle_rows_spec (rows : List MetricRow)
    (h : ∀ r ∈ rows, rowCoercible r) :
    (∃ b, bundleRows rows = .ok b) ∧
    (bundleRows [metRow "performance" "efficiency" none]).map
      (fun b => b.performance_metrics "efficiency") = .ok (some (.num 0)) ∧
    bundleRows [metRow "performance" "efficiency" (some (.nonNum "abc"))] =
      .error () :=
  ⟨foldlM_processRow_ok rows emptyBundle h, by rfl, by rfl⟩

/-- Witness for C5: a single well-formed numeric row bundles successfully. -/
theorem bundle_rows_spec_witness :
    ∃ b, bundleRows [metRow "fleet_summary" "total_devices" (some (.num 5))] =
      .ok b :=
  (bundle_rows_spec [metRow "fleet_summary" "total_devices" (some (.num 5))]
    (by intro r hr; rw [List.mem_singleton] at hr; subst hr; trivial)).1

/-- Counterexample for C5 as stated: one non-coercible `metric_value` makes
the whole bundling loop raise (abort) instead of storing `0` for that
metric. -/
theorem bundle_noncoercible_cex :
    bundleRows [metRow "performance" "efficiency" (some (.nonNum "abc"))] =
      .error () := by
  rfl

/-! ## Claim theorems for the recommendations -/

/-- On numeric input the error-rate group computes exactly its pure rule
function. -/
theorem errGroupE_eval (t e u : ℚ) :
    errGroupE (fsRec t e u) = .ok (errRateRules t e) := by
  simp only [errGroupE, getV_fsRec_total, getV_fsRec_err, pyGt, pyDiv]
  by_cases he : e > 0
  · by_cases ht : t > 0
    · have ht0 : ¬(t = 0) := ne_of_gt ht
      by_cases h20 : e / t * 100 > 20
      · norm_num [errRateRules, he, ht, ht0, h20]
      · by_cases h10 : e / t * 100 > 10
        · norm_num [errRateRules, he, ht, ht0, h20, h10]
        · norm_num [errRateRules, he, ht, ht0, h20, h10]
    · norm_num [errRateRules, he, ht]
  · norm_num [errRateRules, he]

/-- On numeric input the temperature group computes exactly its pure rule
function. -/
theorem tempGroupE_eval (x : ℚ) :
    tempGroupE (pmRec x) = .ok (tempRules x) := by
  simp only [tempGroupE, getV_pmRec, pyGt, pyLt]
  by_cases h60 : x > 60
  · norm_num [tempRules, h60]
  · by_cases h20 : x < 20
    · norm_num [tempRules, h60, h20]
    · norm_num [tempRules, h60, h20]

/-- On numeric input the uptime group computes exactly its pure rule
function. -/
theorem upGroupE_eval (t e u : ℚ) :
    upGroupE (fsRec t e u) = .ok (uptimeRules u) := by
  simp only [upGroupE, getV_fsRec_up, pyGt, pyLt]
  by_cases h90 : u < 90
  · norm_num [uptimeRules, h90]
  · by_cases h95 : u > 95
    · norm_num [uptimeRules, h90, h95]
    · norm_num [uptimeRules, h90, h95]

/-- On numeric input the recommendation body concatenates the three rule
groups in source order and appends the default message exactly when all three
are empty. -/
theorem recsCore_eval (total errs temp uptime : ℚ) :
    recsCore (fsRec total errs uptime) (pmRec temp) =
      .ok (errRateRules total errs ++ tempRules temp ++ uptimeRules uptime ++
        (if errRateRules total errs ++ tempRules temp ++ uptimeRules uptime = []
         then [normalOpsMsg] else [])) := by
  rw [recsCore, errGroupE_eval total errs uptime, tempGroupE_eval temp,
    upGroupE_eval total errs uptime]
  by_cases hnil :
      errRateRules total errs ++ tempRules temp ++ uptimeRules uptime = []
  · simp [hnil]
  · have hc : ¬(errRateRules total errs = [] ∧ tempRules temp = [] ∧
        uptimeRules uptime = []) := by
      intro hc
      exact hnil (by simp [hc.1, hc.2.1, hc.2.2])
    simp [hc]

/-- The error-rate group never emits the default message. -/
theorem count_normal_errRules (t e : ℚ) :
    List.count normalOpsMsg (errRateRules t e) = 0 := by
  rw [errRateRules]
  dsimp only
  split_ifs <;> decide

/-- The temperature group never emits the default message. -/
theorem count_normal_tempRules (x : ℚ) :
    List.count normalOpsMsg (tempRules x) = 0 := by
  rw [tempRules]
  split_ifs <;> decide

/-- The uptime group never emits the default message. -/
theorem count_normal_upRules (u : ℚ) :
    List.count normalOpsMsg (uptimeRules u) = 0 := by
  rw [uptimeRules]
  split_ifs <;> decide

/-- C6 (confirmed): the rule groups are evaluated in the fixed source order —
error rate, temperature, uptime, default; the spec's vector (3 of 10 devices
in error, temperature and uptime in their quiet bands) yields exactly the one
critical message; and the default "operating normally" message appears
exactly once iff no other rule fired. -/
theorem fleet_recommendations_spec :
    generate_fleet_recommendations (fsRec 10 3 92) (pmRec 30) emptyMetrics =
      [criticalErrMsg] ∧
    (∀ (total errs temp uptime : ℚ) (ed : Metrics),
      generate_fleet_recommendations (fsRec total errs uptime) (pmRec temp) ed =
        errRateRules total errs ++ tempRules temp ++ uptimeRules uptime ++
          (if errRateRules total errs ++ tempRules temp ++ uptimeRules uptime = []
           then [normalOpsMsg] else [])) ∧
    (∀ (total errs temp uptime : ℚ) (ed : Metrics),
      List.count normalOpsMsg
          (generate_fleet_recommendations (fsRec total errs uptime) (pmRec temp) ed) =
        (if errRateRules total errs = [] ∧ tempRules temp = [] ∧
            uptimeRules uptime = [] then 1 else 0)) := by
  have hmain : ∀ (total errs temp uptime : ℚ) (ed : Metrics),
      generate_fleet_recommendations (fsRec total errs uptime) (pmRec temp) ed =
        errRateRules total errs ++ tempRules temp ++ uptimeRules uptime ++
          (if errRateRules total errs ++ tempRules temp ++ uptimeRules uptime = []
           then [normalOpsMsg] else []) := by
    intro total errs temp uptime ed
    rw [generate_fleet_recommendations, recsCore_eval]
  refine ⟨?_, hmain, ?_⟩
  · rw [hmain]
    norm_num [errRateRules, tempRules, uptimeRules]
  · intro total errs temp uptime ed
    rw [hmain]
    by_cases hc : errRateRules total errs = [] ∧ tempRules temp = [] ∧
        uptimeRules uptime = []
    · obtain ⟨h1, h2, h3⟩ := hc
      simp [h1, h2, h3]
    · have hne : ¬(errRateRules total errs ++ tempRules temp ++
          uptimeRules uptime = []) := by
        simp only [List.append_eq_nil]
        tauto
      simp only [if_neg hne, if_neg hc, List.append_nil, List.count_append,
        count_normal_errRules, count_normal_tempRules, count_normal_upRules]

/-! ## Claim theorems for the overvoltage priority -/

/-- Python `int()` of an integer-valued float is that integer. -/
theorem ratTrunc_intCast (a : ℤ) : ratTrunc ((a : ℚ)) = a := by
  rw [ratTrunc]
  split_ifs with h
  · exact_mod_cast Int.floor_intCast a
  · exact_mod_cast Int.ceil_intCast a

/-- C7 (confirmed): the four priority cases are evaluated in source order with
the first match winning: more than five affected devices is High even when the
maximum voltage exceeds 800; otherwise voltage above 800 is Critical; then any
affected device is Medium; otherwise Normal.  In particular
`{affected_devices: 6, max_voltage: 500}` is High and
`{affected_devices: 2, max_voltage: 900}` is Critical. -/
theorem classify_priority_precedence :
    (∀ (a : ℤ) (m : ℚ), 5 < a →
      classifyPriority (ovSummary (a : ℚ)) (ovVolt m) =
        .ok "High - Multiple devices at risk") ∧
    (∀ (a : ℤ) (m : ℚ), a ≤ 5 → 800 < m →
      classifyPriority (ovSummary (a : ℚ)) (ovVolt m) =
        .ok "Critical - Dangerous voltage levels detected") ∧
    (∀ (a : ℤ) (m : ℚ), a ≤ 5 → m ≤ 800 → 0 < a →
      classifyPriority (ovSummary (a : ℚ)) (ovVolt m) =
        .ok "Medium - Monitor and plan preventive action") ∧
    (∀ (a : ℤ) (m : ℚ), a ≤ 5 → m ≤ 800 → a ≤ 0 →
      classifyPriority (ovSummary (a : ℚ)) (ovVolt m) =
        .ok "Normal - No overvoltage issues detected") ∧
    classifyPriority (ovSummary 6) (ovVolt 500) =
      .ok "High - Multiple devices at risk" ∧
    classifyPriority (ovSummary 2) (ovVolt 900) =
      .ok "Critical - Dangerous voltage levels detected" := by
  refine ⟨?_, ?_, ?_, ?_, ?_, ?_⟩
  · intro a m h5
    simp [classifyPriority, getV_ovSummary, getV_ovVolt, pyInt, pyFloat,
      ratTrunc_intCast, h5]
  · intro a m h5 h800
    simp [classifyPriority, getV_ovSummary, getV_ovVolt, pyInt, pyFloat,
      ratTrunc_intCast, not_lt.mpr h5, h800]
  · intro a m h5 h800 h0
    simp [classifyPriority, getV_ovSummary, getV_ovVolt, pyInt, pyFloat,
      ratTrunc_intCast, not_lt.mpr h5, not_lt.mpr h800, h0]
  · intro a m h5 h800 h0
    simp [classifyPriority, getV_ovSummary, getV_ovVolt, pyInt, pyFloat,
      ratTrunc_intCast, not_lt.mpr h5, not_lt.mpr h800, not_lt.mpr h0]
  · norm_num [classifyPriority, getV_ovSummary, getV_ovVolt, pyInt, pyFloat,
      ratTrunc]
  · norm_num [classifyPriority, getV_ovSummary, getV_ovVolt, pyInt, pyFloat,
      ratTrunc]

/-- Witness for C7: six affected devices at 500 V classify High. -/
theorem classify_priority_precedence_witness :
    classifyPriority (ovSummary ((6 : ℤ) : ℚ)) (ovVolt 500) =
      .ok "High - Multiple devices at risk" :=
  classify_priority_precedence.1 6 500 (by decide)

/-! ## Claim theorems for the high-error device ranking -/

/-- Membership through stable insertion. -/
theorem mem_insertRateDesc {z x : Device} :
    ∀ {l : List Device}, z ∈ insertRateDesc x l ↔ z = x ∨ z ∈ l := by
  intro l
  induction l with
  | nil => simp [insertRateDesc]
  | cons y ys ih =>
    rw [insertRateDesc]
    split_ifs with hle
    · simp [List.mem_cons]
    · simp only [List.mem_cons, ih]
      tauto

/-- Stable insertion preserves descending order by error rate. -/
theorem insertRateDesc_pairwise (x : Device) :
    ∀ (l : List Device),
      l.Pairwise (fun a b => b.error_rate_percent ≤ a.error_rate_percent) →
      (insertRateDesc x l).Pairwise
        (fun a b => b.error_rate_percent ≤ a.error_rate_percent) := by
  intro l
  induction l with
  | nil => intro _; simp [insertRateDesc]
  | cons y ys ih =>
    intro h
    rw [List.pairwise_cons] at h
    obtain ⟨hy, hys⟩ := h
    rw [insertRateDesc]
    split_ifs with hle
    · rw [List.pairwise_cons]
      constructor
      · intro z hz
        rcases List.mem_cons.mp hz with rfl | hz2
        · exact hle
        · exact le_trans (hy z hz2) hle
      · exact List.pairwise_cons.mpr ⟨hy, hys⟩
    · rw [List.pairwise_cons]
      constructor
      · intro z hz
        rcases mem_insertRateDesc.mp hz with rfl | hz2
        · exact le_of_lt (lt_of_not_le hle)
        · exact hy z hz2
      · exact ih hys

/-- The embedded sort returns a list sorted by error rate descending. -/
theorem sortByRateDesc_pairwise (l : List Device) :
    (sortByRateDesc l).Pairwise
      (fun a b => b.error_rate_percent ≤ a.error_rate_percent) := by
  induction l with
  | nil => simp [sortByRateDesc]
  | cons x xs ih =>
    rw [sortByRateDesc, List.foldr_cons]
    rw [sortByRateDesc] at ih
    exact insertRateDesc_pairwise x _ ih

/-- Inserting into a sorted list places the new element in front of the
equal-rate elements already present. -/
theorem filter_insertRateDesc (x : Device) (q : ℚ) :
    ∀ (l : List Device),
      l.Pairwise (fun a b => b.error_rate_percent ≤ a.error_rate_percent) →
      (insertRateDesc x l).filter (fun d => decide (d.error_rate_percent = q)) =
        (if x.error_rate_percent = q then
          x :: l.filter (fun d => decide (d.error_rate_percent = q))
        else l.filter (fun d => decide (d.error_rate_percent = q))) := by
  intro l
  induction l with
  | nil =>
    intro _
    rw [insertRateDesc]
    by_cases hx : x.error_rate_percent = q <;> simp [hx]
  | cons y ys ih =>
    intro h
    rw [List.pairwise_cons] at h
    obtain ⟨hy, hys⟩ := h
    rw [insertRateDesc]
    by_cases hle : y.error_rate_percent ≤ x.error_rate_percent
    · rw [if_pos hle]
      by_cases hx : x.error_rate_percent = q <;> simp [List.filter_cons, hx]
    · rw [if_neg hle]
      have hlt := lt_of_not_le hle
      rw [List.filter_cons, List.filter_cons, ih hys]
      by_cases hx : x.error_rate_percent = q
      · have hyq : ¬(y.error_rate_percent = q) := by
          rw [← hx]
          exact ne_of_gt hlt
        simp [hx, hyq]
      · simp [hx]

/-- Stability: for every rate value, the sorted list keeps the equal-rate
elements in their source order. -/
theorem sortByRateDesc_filter (l : List Device) (q : ℚ) :
    (sortByRateDesc l).filter (fun d => decide (d.error_rate_percent = q)) =
      l.filter (fun d => decide (d.error_rate_percent = q)) := by
  induction l with
  | nil => rfl
  | cons x xs ih =>
    rw [sortByRateDesc, List.foldr_cons]
    have hs := sortByRateDesc_pairwise xs
    rw [sortByRateDesc] at hs ih
    rw [filter_insertRateDesc x q _ hs, List.filter_cons]
    by_cases hx : x.error_rate_percent = q
    · simp [hx, ih]
    · simp [hx, ih]

/-- Sorting neither adds nor removes devices. -/
theorem mem_sortByRateDesc {z : Device} :
    ∀ {l : List Device}, z ∈ sortByRateDesc l ↔ z ∈ l := by
  intro l
  induction l with
  | nil => simp [sortByRateDesc]
  | cons x xs ih =>
    rw [sortByRateDesc, List.foldr_cons]
    rw [mem_insertRateDesc]
    rw [sortByRateDesc] at ih
    simp [ih]

/-- C8 (confirmed; the remote procedure's filter is modelled from the spec):
the device list is sorted by `error_rate_percent` descending with ties keeping
source order, the alert buckets use the stated closed/half-open boundaries
(rate 10 and rate 20 count as high priority, only rate > 20 as critical), and
the spec's vector holds: rates 25/18/12/8 with threshold 10 give the order
[25, 18, 12] with one critical and two high-priority devices. -/
theorem high_error_devices_spec :
    (∀ (rows : List DeviceRow) (t : ℚ),
      ((get_high_error_devices rows t).devices).Pairwise
        (fun a b => b.error_rate_percent ≤ a.error_rate_percent)) ∧
    (∀ (rows : List DeviceRow) (t q : ℚ),
      ((get_high_error_devices rows t).devices).filter
          (fun d => decide (d.error_rate_percent = q)) =
        ((rpcHighErrorDevices rows t).map toDevice).filter
          (fun d => decide (d.error_rate_percent = q))) ∧
    ((get_high_error_devices
        [devRow "a" 25, devRow "b" 18, devRow "c" 12, devRow "d" 8] 10).devices.map
      (fun d => d.error_rate_percent) = [25, 18, 12] ∧
     (get_high_error_devices
        [devRow "a" 25, devRow "b" 18, devRow "c" 12, devRow "d" 8] 10).critical = 1 ∧
     (get_high_error_devices
        [devRow "a" 25, devRow "b" 18, devRow "c" 12, devRow "d" 8] 10).high_priority = 2) ∧
    ((get_high_error_devices [devRow "x" 10, devRow "y" 20] 5).critical = 0 ∧
     (get_high_error_devices [devRow "x" 10, devRow "y" 20] 5).high_priority = 2) := by
  refine ⟨?_, ?_, ⟨?_, ?_, ?_⟩, ?_, ?_⟩
  · intro rows t
    exact sortByRateDesc_pairwise _
  · intro rows t q
    exact sortByRateDesc_filter _ q
  · decide
  · decide
  · decide
  · decide
  · decide

/-- C9 (corrected): `error_rate_percent` equals the source row's `error_rate`
column coerced by `float()`; it is not recomputed from
`error_count / total_readings * 100`, and every returned device carries such a
copied value from some source row. -/
theorem error_rate_percent_copied :
    (∀ row : DeviceRow, (toDevice row).error_rate_percent = row.error_rate) ∧
    (∀ (rows : List DeviceRow) (t : ℚ) (d : Device),
      d ∈ (get_high_error_devices rows t).devices →
      ∃ r ∈ rows, d = toDevice r) := by
  constructor
  · intro row
    rfl
  · intro rows t d hd
    have hd2 : d ∈ (rpcHighErrorDevices rows t).map toDevice :=
      mem_sortByRateDesc.mp hd
    rw [List.mem_map] at hd2
    obtain ⟨r, hr, rfl⟩ := hd2
    exact ⟨r, List.mem_of_mem_filter hr, rfl⟩

/-- Witness for C9: the copied value for the discrepant fixture row, and
membership through the pipeline for a concrete table. -/
theorem error_rate_percent_copied_witness :
    (toDevice devRow99).error_rate_percent = devRow99.error_rate ∧
    ∃ r ∈ [devRow "a" 25], toDevice (devRow "a" 25) = toDevice r :=
  ⟨error_rate_percent_copied.1 devRow99,
   error_rate_percent_copied.2 [devRow "a" 25] 10 (toDevice (devRow "a" 25))
     (by decide)⟩

/-- Counterexample for C9 as stated: the fixture row has `error_count` 1 of
`total_readings` 100 (a derived rate of 1) but `error_rate` 99, and the
produced device reports 99. -/
theorem error_rate_not_derived_cex :
    (toDevice devRow99).error_rate_percent = 99 ∧
    ((devRow99.error_count : ℚ) / (devRow99.total_readings : ℚ)) * 100 = 1 ∧
    (99 : ℚ) ≠ 1 := by
  refine ⟨rfl, ?_, by norm_num⟩
  norm_num [devRow99]

end Dextro
